import Mathlib

/-!
Verification development for the tap-twitter connector.

Shallow embedding of src/tap_twitter/helpers.py, src/tap_twitter/client.py
and src/tap_twitter/streams.py.  Date strings are parsed by an abstract
function into Int instants (seconds); HTTP traffic is given by oracle
functions supplied as parameters; Python generators and the process-wide
cache are modelled by explicit state.
-/

/- ===== helpers.py ===== -/

/-- helpers.date_to_rfc3339: parse the date string to a UTC instant and
re-render it in the wire format.  The parser and the wire formatter are
parameters of the embedding. -/
def date_to_rfc3339 (strptime_to_utc : String → Int) (wire_format : Int → String)
    (date : String) : String :=
  wire_format (strptime_to_utc date)

/-- helpers.get_bookmark_or_max_date: if the bookmark date is older than the
lookback window, return the window floor plus 30 seconds (isoformat),
otherwise return the input unchanged.  now is the current UTC instant in
seconds; a day is 86400 seconds. -/
def get_bookmark_or_max_date (strptime_to_utc : String → Int) (isoformat : Int → String)
    (now : Int) (lookback_days : Nat) (date : String) : String :=
  let max_lookback_date : Int := now - (lookback_days : Int) * 86400
  if strptime_to_utc date < max_lookback_date then
    isoformat (max_lookback_date + 30)
  else
    date

/- ===== client.py ===== -/

/-- The typed failure classes of client.py (TwitterClient*Error).  generic is
the bare TwitterClientError. -/
inductive ErrKind
  | e400
  | e401
  | e403
  | e404
  | e429
  | e5xx
  | generic
deriving DecidableEq

/-- client.ERROR_CODE_EXCEPTION_MAPPING: status code to (exception class,
fallback message). -/
def ERROR_CODE_EXCEPTION_MAPPING (status : Nat) : Option (ErrKind × String) :=
  if status = 400 then some (ErrKind.e400, "Bad Request")
  else if status = 401 then some (ErrKind.e401, "Unauthorized")
  else if status = 403 then some (ErrKind.e403, "Forbidden")
  else if status = 404 then some (ErrKind.e404, "Not Found")
  else if status = 429 then some (ErrKind.e429, "API limit has been reached")
  else if status = 500 then some (ErrKind.e5xx, "Internal Server Error")
  else if status = 503 then some (ErrKind.e5xx, "Service Unavailable")
  else none

/-- A parsed JSON response body as raise_for_error reads it: the errors
array, each element reduced to its optional message field, plus an opaque
payload distinguishing bodies. -/
structure JsonBody where
  errors : Option (List (Option String))
  payload : Nat
deriving DecidableEq

/-- A response body: either not parseable as JSON (resp.json() raises
ValueError) or a parsed body. -/
inductive RespBody
  | malformed
  | parsed (body : JsonBody)
deriving DecidableEq

/-- An HTTP response as the client observes it. -/
structure HttpResponse where
  status : Nat
  body : RespBody
deriving DecidableEq

/-- Outcome of client.raise_for_error.  noRaise: resp.raise_for_status did
not raise (status outside 400..599), so the function returns normally.
raised k m: a TwitterClientError of class k; m = none models the branch
that wraps the original HTTPError object as the message.  indexError: the
body carried errors equal to the empty list so errors[0] raised IndexError,
which the except clause does not catch. -/
inductive RaiseOutcome
  | noRaise
  | raised (kind : ErrKind) (message : Option String)
  | indexError
deriving DecidableEq

/-- The exception class raise_for_error selects for a status code:
the mapped class, defaulting to the bare TwitterClientError. -/
def status_class (status : Nat) : ErrKind :=
  ((ERROR_CODE_EXCEPTION_MAPPING status).map Prod.fst).getD ErrKind.generic

/-- The fallback phrase raise_for_error uses for a status code when the body
provides no message: the mapped phrase, defaulting to Client Error. -/
def status_fallback (status : Nat) : String :=
  ((ERROR_CODE_EXCEPTION_MAPPING status).map Prod.snd).getD "Client Error"

/-- client.raise_for_error.  requests raise_for_status raises exactly for
400 <= status < 600.  Inside the handler: a malformed body makes resp.json()
raise ValueError, caught and re-raised as the generic class wrapping the
HTTPError; otherwise the message is errors[0].message when truthy, else the
mapped fallback phrase, else the fixed phrase Client Error. -/
def raise_for_error (resp : HttpResponse) : RaiseOutcome :=
  if 400 ≤ resp.status ∧ resp.status < 600 then
    match resp.body with
    | RespBody.malformed => RaiseOutcome.raised ErrKind.generic none
    | RespBody.parsed b =>
      let errorsList := b.errors.getD [none]
      match errorsList with
      | [] => RaiseOutcome.indexError
      | msg0 :: _ =>
        let fallback := status_fallback resp.status
        let message :=
          match msg0 with
          | some m => if m = "" then fallback else m
          | none => fallback
        RaiseOutcome.raised (status_class resp.status) (some message)
  else
    RaiseOutcome.noRaise

/-- Outcome of one attempt of Client.make_request.  ok: the 200 body.
noBody: a non-200 status for which raise_for_error did not raise, so the
function falls through to return None.  failed: a typed TwitterClientError.
pyValueError: resp.json() raised on a malformed body (evaluated by the
logging call before raise_for_error, or on a 200 body).  pyIndexError:
the IndexError path of raise_for_error.  noResponse is a model artifact for
an exhausted response script. -/
inductive ReqOut
  | ok (body : JsonBody)
  | noBody
  | failed (kind : ErrKind) (message : Option String)
  | pyValueError
  | pyIndexError
  | noResponse
deriving DecidableEq

/-- One attempt of Client.make_request on a scripted response. -/
def make_request_once (response : HttpResponse) : ReqOut :=
  if response.status ≠ 200 then
    match response.body with
    | RespBody.malformed => ReqOut.pyValueError
    | RespBody.parsed _ =>
      match raise_for_error response with
      | RaiseOutcome.noRaise => ReqOut.noBody
      | RaiseOutcome.raised k m => ReqOut.failed k m
      | RaiseOutcome.indexError => ReqOut.pyIndexError
  else
    match response.body with
    | RespBody.malformed => ReqOut.pyValueError
    | RespBody.parsed b => ReqOut.ok b

/-- The while loop of client.retry_after_wait_gen, unrolled into the list of
yielded wait times.  The fuel argument only bounds the loop; with fuel 300
the guard n <= 300, not the fuel, terminates the loop (each step adds 10). -/
def retry_wait_list (fuel : Nat) (n : Nat) : List Nat :=
  match fuel with
  | 0 => []
  | fuel + 1 => if n ≤ 300 then n :: retry_wait_list fuel (n + 10) else []

/-- client.retry_after_wait_gen: starts at 10, steps by 10, ceiling 300. -/
def retry_after_wait_gen : List Nat := retry_wait_list 300 10

/-- The backoff.on_exception wrapper around make_request: only
TwitterClient429Error is retried, waiting the next value of the wait
generator between attempts, for at most tries_left attempts in total.
Returns the list of waits slept and the final outcome. -/
def make_request_with_retry :
    List HttpResponse → Nat → List Nat → List Nat × ReqOut
  | [], _, _ => ([], ReqOut.noResponse)
  | r :: rest, tries_left, waits =>
    match make_request_once r with
    | ReqOut.failed kind m =>
      if kind = ErrKind.e429 ∧ 1 < tries_left then
        match waits with
        | [] => ([], ReqOut.failed kind m)
        | w :: ws =>
          let next := make_request_with_retry rest (tries_left - 1) ws
          (w :: next.1, next.2)
      else ([], ReqOut.failed kind m)
    | out => ([], out)

/-- Client.make_request as decorated: max_tries 10, waits from
retry_after_wait_gen. -/
def client_request (responses : List HttpResponse) : List Nat × ReqOut :=
  make_request_with_retry responses 10 retry_after_wait_gen

/- ===== streams.py: data model ===== -/

/-- A record is a JSON object: an association list read as a map via the
first matching key (set_key keeps keys unique, as a Python dict does). -/
abbrev Record := List (String × String)

/-- Singer state flattened to an association list keyed by the pair
(tap_stream_id, replication_key); a prepended entry shadows older ones. -/
abbrev SyncState := List ((String × String) × String)

/-- singer.get_bookmark with a default. -/
def get_bookmark (state : SyncState) (tap_stream_id replication_key config_start : String) :
    String :=
  (state.lookup (tap_stream_id, replication_key)).getD config_start

/-- singer.write_bookmark: set the watermark for the
(tap_stream_id, replication_key) pair. -/
def write_bookmark (state : SyncState) (tap_stream_id replication_key value : String) :
    SyncState :=
  ((tap_stream_id, replication_key), value) :: state

/-- Python dict item assignment d[k] = v: replace in place if the key
exists, else append. -/
def set_key : List (String × String) → String → String → List (String × String)
  | [], k, v => [(k, v)]
  | (k0, v0) :: rest, k, v =>
    if k0 = k then (k, v) :: rest else (k0, v0) :: set_key rest k v

/-- A Python dict literal built from pairs taken left to right, later pairs
overwriting earlier ones (the semantics of a literal with unpacking). -/
def dict_literal (pairs : List (String × String)) : List (String × String) :=
  pairs.foldl (fun d p => set_key d p.1 p.2) []

/- ===== streams.py: IncrementalStream.sync ===== -/

/-- The for loop of IncrementalStream.sync: transform each record, read its
replication-key value (none models a KeyError aborting the sync), emit the
record when its instant is at least the bookmark or the stream is users, and
track the maximum instant over emitted records.  Accumulates the emitted
records and the running maximum. -/
def sync_loop (strptime_to_utc : String → Int) (transform : Record → Record)
    (tap_stream_id replication_key : String) (bookmark_datetime : Int) :
    List Record → List Record → Int → Option (List Record × Int)
  | [], emitted, max_datetime => some (emitted, max_datetime)
  | record :: rest, emitted, max_datetime =>
    let transformed_record := transform record
    match transformed_record.lookup replication_key with
    | none => none
    | some v =>
      let record_datetime := strptime_to_utc v
      if bookmark_datetime ≤ record_datetime ∨ tap_stream_id = "users" then
        sync_loop strptime_to_utc transform tap_stream_id replication_key bookmark_datetime
          rest (emitted ++ [transformed_record]) (max record_datetime max_datetime)
      else
        sync_loop strptime_to_utc transform tap_stream_id replication_key bookmark_datetime
          rest emitted max_datetime

/-- IncrementalStream.sync.  records stands for the sequence the record
source yields for this run; the result is the list of records written to the
record sink together with the state written to the state sink (none models a
KeyError abort, in which case nothing is committed). -/
def incremental_sync (strptime_to_utc : String → Int) (strftime : Int → String)
    (transform : Record → Record) (tap_stream_id replication_key : String)
    (config_start : String) (state : SyncState) (records : List Record) :
    Option (List Record × SyncState) :=
  let start_date := get_bookmark state tap_stream_id replication_key config_start
  let bookmark_datetime := strptime_to_utc start_date
  match sync_loop strptime_to_utc transform tap_stream_id replication_key bookmark_datetime
      records [] bookmark_datetime with
  | none => none
  | some (emitted, max_datetime) =>
    some (emitted, write_bookmark state tap_stream_id replication_key (strftime max_datetime))

/- ===== streams.py: SearchTweets ===== -/

/-- A configuration value that is either a plain string or a list (the only
shapes the isinstance check in SearchTweets.get_records distinguishes). -/
inductive ConfVal
  | str (s : String)
  | list (items : List String)
deriving DecidableEq

/-- The slice of the tap config the streams read. -/
structure Config where
  tweet_search_query : Option ConfVal
  tweet_search_fields : Option String
  user_fields : Option String
deriving DecidableEq

/-- SearchTweets.get_tweet_fields: default projection when the config field
is absent or empty, otherwise split on commas and strip blanks. -/
def get_tweet_fields (config : Config) : String :=
  match config.tweet_search_fields with
  | none => "created_at,author_id"
  | some fields =>
    if fields = "" then "created_at,author_id"
    else String.intercalate "," ((fields.splitOn ",").map (fun s => s.trim))

/-- The query parameters of one recent-tweets request. -/
structure TweetParams where
  query : String
  tweet_fields : String
  start_time : String
  next_token : Option String
  max_results : Nat
deriving DecidableEq

/-- One element of an errors array in a search response. -/
structure ErrObj where
  title : Option String
  detail : Option String
deriving DecidableEq

/-- One page of the recent-tweets search endpoint as get_records reads it:
meta.next_token, data and errors. -/
structure SearchPage where
  next_token : Option String
  data : Option (List Record)
  errors : Option (List ErrObj)
deriving DecidableEq

/-- The failures streams.py can raise: TapConfigException,
TwitterClientError with a message, and a bare Python TypeError (iterating
over data when it is absent). -/
inductive TapErr
  | configError
  | twitterClientError (message : String)
  | typeError
deriving DecidableEq

/-- Python f-string rendering of an optional value (None renders as None). -/
def opt_str : Option String → String
  | some s => s
  | none => "None"

/-- The while loop over pages for one query in SearchTweets.get_records,
driven by an api oracle.  Returns the requests issued, the records yielded
(non-parent mode) and the error that ended the loop, if any.  fuel bounds
the number of pages the model unrolls. -/
def query_loop (api : TweetParams → SearchPage) (query tweet_fields start_time : String) :
    Nat → Option String → List TweetParams × List Record × Option TapErr
  | 0, _ => ([], [], none)
  | fuel + 1, next_token =>
    let params : TweetParams :=
      { query := query, tweet_fields := tweet_fields, start_time := start_time,
        next_token := next_token, max_results := 100 }
    let response := api params
    let token := response.next_token
    match response.data, response.errors with
    | none, some (e :: _) =>
      ([params], [], some (TapErr.twitterClientError (opt_str e.title ++ ": " ++ opt_str e.detail)))
    | some [], some (e :: _) =>
      ([params], [], some (TapErr.twitterClientError (opt_str e.title ++ ": " ++ opt_str e.detail)))
    | none, _ => ([params], [], some TapErr.typeError)
    | some ds, _ =>
      match token with
      | none => ([params], ds, none)
      | some t =>
        let out := query_loop api query tweet_fields start_time fuel (some t)
        (params :: out.1, ds ++ out.2.1, out.2.2)

/-- The outer for loop of SearchTweets.get_records over the configured
queries; a raise from one query stops the whole iteration. -/
def run_queries (api : TweetParams → SearchPage) (tweet_fields start_time : String)
    (fuel : Nat) : List String → List TweetParams × List Record × Option TapErr
  | [] => ([], [], none)
  | query :: rest =>
    let out := query_loop api query tweet_fields start_time fuel none
    match out.2.2 with
    | some e => (out.1, out.2.1, some e)
    | none =>
      let out2 := run_queries api tweet_fields start_time fuel rest
      (out.1 ++ out2.1, out.2.1 ++ out2.2.1, out2.2.2)

/-- SearchTweets.get_records in non-parent mode: clamp the start date, build
the wire-format start time and the field projection, check that the
configured query set is a list (raising TapConfigException otherwise, before
any request), then page through every query. -/
def search_get_records (api : TweetParams → SearchPage)
    (strptime_to_utc : String → Int) (wire_format : Int → String) (isoformat : Int → String)
    (now : Int) (fuel : Nat) (config : Config) (start_date : String) :
    List TweetParams × List Record × Option TapErr :=
  let start_date2 := get_bookmark_or_max_date strptime_to_utc isoformat now 7 start_date
  let start_time := date_to_rfc3339 strptime_to_utc wire_format start_date2
  let tweet_fields := get_tweet_fields config
  match config.tweet_search_query with
  | some (ConfVal.list queries) => run_queries api tweet_fields start_time fuel queries
  | _ => ([], [], some TapErr.configError)

/- ===== streams.py: Users ===== -/

/-- SearchTweets.get_records decorated with functools.lru_cache is a
generator function: the cache stores the generator object itself, so the
cache cell below holds the items remaining in the cached generator (none
means no entry yet), and productions counts how many times the body ran. -/
structure CachedGen where
  remaining : Option (List Record)
  productions : Nat
deriving DecidableEq

/-- One call through the lru_cache followed by a full consumption of the
returned generator.  A cache miss creates a fresh generator whose
consumption runs the body once; a cache hit returns the same generator
object, whose remaining items were already consumed. -/
def consume_cached (produce : List Record) (st : CachedGen) : List Record × CachedGen :=
  match st.remaining with
  | none => (produce, { remaining := some [], productions := st.productions + 1 })
  | some items => (items, { remaining := some [], productions := st.productions })

/-- Two full consumptions with the identical argument tuple, starting from
an empty cache: returns both consumed sequences and how many times the
underlying body (the network interaction) ran. -/
def consume_twice (produce : List Record) : List Record × List Record × Nat :=
  let st0 : CachedGen := { remaining := none, productions := 0 }
  let out1 := consume_cached produce st0
  let out2 := consume_cached produce out1.2
  (out1.1, out2.1, out2.2.productions)

/-- Users.get_user_fields: default projection when the config field is
absent or empty, otherwise split on commas and strip blanks. -/
def get_user_fields (config : Config) : String :=
  match config.user_fields with
  | none => "created_at"
  | some fields =>
    if fields = "" then "created_at"
    else String.intercalate "," ((fields.splitOn ",").map (fun s => s.trim))

/-- The query parameters of one user-lookup request. -/
structure UserParams where
  ids : String
  user_fields : String
deriving DecidableEq

/-- A user-lookup response as Users.get_records reads it: its data array
(absent data makes the generator expression raise TypeError). -/
structure UsersResponse where
  data : Option (List Record)
deriving DecidableEq

/-- The loop body of Users.get_records over the batches of author ids the
parent stream yields: join each batch with commas, issue one lookup through
the get_users oracle (modelling Client.get_users, a plain GET of the user
lookup endpoint), and yield one record per returned user, built as the dict
literal with the synthetic updated_at first and the user fields unpacked
after it. -/
def users_loop (get_users : UserParams → UsersResponse) (user_fields start_date : String) :
    List (List String) → List UserParams × List Record × Option TapErr
  | [] => ([], [], none)
  | authors :: rest =>
    let author_ids := String.intercalate "," authors
    let params : UserParams := { ids := author_ids, user_fields := user_fields }
    match (get_users params).data with
    | none => ([params], [], some TapErr.typeError)
    | some data =>
      let recs := data.map (fun author => dict_literal (("updated_at", start_date) :: author))
      let out := users_loop get_users user_fields start_date rest
      (params :: out.1, recs ++ out.2.1, out.2.2)

/-- Users.get_records: parent_batches stands for the sequence of author-id
batches get_parent_data yields, one per page of the parent pagination. -/
def users_get_records (get_users : UserParams → UsersResponse)
    (parent_batches : List (List String)) (config : Config) (start_date : String) :
    List UserParams × List Record × Option TapErr :=
  let user_fields := get_user_fields config
  users_loop get_users user_fields start_date parent_batches

/- ===== auxiliary definitions used by the statements ===== -/

/-- Whether a request outcome is one of the typed TwitterClientError
failures. -/
def ReqOut.is_typed_failure : ReqOut → Bool
  | ReqOut.failed _ _ => true
  | _ => false

/-- sub occurs as a contiguous substring of s (stated over the character
data). -/
def contains_sub (s sub : String) : Prop :=
  ∃ p q, s.data = p ++ sub.data ++ q

/-- Each source record paired with the parsed instant of its transformed
replication-key value, in source order; none when some transformed record
lacks the key, mirroring the KeyError abort of the sync loop.  This is the
spec-side decomposition the sync theorems compare the code against. -/
def keyed_records (strptime_to_utc : String → Int) (transform : Record → Record)
    (replication_key : String) : List Record → Option (List (Record × Int))
  | [] => some []
  | r :: rest =>
    match (transform r).lookup replication_key with
    | none => none
    | some v =>
      (keyed_records strptime_to_utc transform replication_key rest).map
        (fun t => (transform r, strptime_to_utc v) :: t)

/-- A tiny concrete date codec used to evaluate the model on explicit
inputs: a handful of date strings mapped to instants and back. -/
def toy_strptime (s : String) : Int :=
  if s = "3" then 3 else if s = "4" then 4 else if s = "5" then 5 else if s = "6" then 6 else 0

/-- The matching concrete formatter for toy_strptime. -/
def toy_strftime (n : Int) : String :=
  if n = 3 then "3" else if n = 4 then "4" else if n = 5 then "5" else if n = 6 then "6" else "0"

/- ===== shared lemmas ===== -/

theorem set_key_lookup_self (d : List (String × String)) (k v : String) :
    (set_key d k v).lookup k = some v := by
  induction d with
  | nil => simp [set_key, List.lookup]
  | cons hd tl ih =>
    obtain ⟨k0, v0⟩ := hd
    by_cases h : k0 = k
    · simp [set_key, h, List.lookup]
    · simp only [set_key, if_neg h, List.lookup]
      have : (k == k0) = false := by
        simp [beq_iff_eq]
        exact fun hk => h hk.symm
      simp [this, ih]

theorem set_key_lookup_ne (d : List (String × String)) (k k2 v : String) (h : k2 ≠ k) :
    (set_key d k2 v).lookup k = d.lookup k := by
  induction d with
  | nil =>
    simp only [set_key, List.lookup]
    have : (k == k2) = false := by
      simp [beq_iff_eq]
      exact fun hk => h hk.symm
    simp [this]
  | cons hd tl ih =>
    obtain ⟨k0, v0⟩ := hd
    by_cases h0 : k0 = k2
    · subst h0
      simp only [set_key, if_pos rfl, List.lookup]
      have : (k == k0) = false := by
        simp [beq_iff_eq]
        exact fun hk => h hk.symm
      simp [this]
    · simp only [set_key, if_neg h0, List.lookup]
      cases hbe : (k == k0) <;> simp [ih]

theorem foldl_set_key_lookup_of_not_mem (pairs : List (String × String))
    (d : List (String × String)) (k : String) (h : k ∉ pairs.map Prod.fst) :
    (pairs.foldl (fun d p => set_key d p.1 p.2) d).lookup k = d.lookup k := by
  induction pairs generalizing d with
  | nil => rfl
  | cons hd tl ih =>
    obtain ⟨k1, v1⟩ := hd
    simp only [List.map, List.mem_cons, not_or] at h
    simp only [List.foldl]
    rw [ih _ h.2, set_key_lookup_ne _ _ _ _ (Ne.symm h.1)]

theorem sync_loop_eq_spec (strptime_to_utc : String → Int) (transform : Record → Record)
    (tap_stream_id replication_key : String) (bookmark_datetime : Int) :
    ∀ (records : List Record) (pairs : List (Record × Int)) (emitted : List Record) (mx : Int),
    keyed_records strptime_to_utc transform replication_key records = some pairs →
    sync_loop strptime_to_utc transform tap_stream_id replication_key bookmark_datetime
        records emitted mx =
      some (emitted ++ (pairs.filter
              (fun p => decide (bookmark_datetime ≤ p.2 ∨ tap_stream_id = "users"))).map Prod.fst,
            (pairs.filter
              (fun p => decide (bookmark_datetime ≤ p.2 ∨ tap_stream_id = "users"))).foldl
              (fun m p => max p.2 m) mx) := by
  intro records
  induction records with
  | nil =>
    intro pairs emitted mx hk
    simp only [keyed_records, Option.some.injEq] at hk
    subst hk
    simp [sync_loop]
  | cons r rest ih =>
    intro pairs emitted mx hk
    simp only [keyed_records] at hk
    cases hl : (transform r).lookup replication_key with
    | none => rw [hl] at hk; exact absurd hk (by simp)
    | some v =>
      rw [hl] at hk
      cases hr : keyed_records strptime_to_utc transform replication_key rest with
      | none => rw [hr] at hk; exact absurd hk (by simp)
      | some t =>
        rw [hr] at hk
        have hk2 : (transform r, strptime_to_utc v) :: t = pairs := by simpa using hk
        subst hk2
        simp only [sync_loop, hl]
        by_cases hc : bookmark_datetime ≤ strptime_to_utc v ∨ tap_stream_id = "users"
        · rw [if_pos hc, ih t _ _ hr]
          simp [hc, List.filter_cons, List.append_assoc]
        · rw [if_neg hc, ih t _ _ hr]
          simp [hc, List.filter_cons]

theorem sync_loop_max_ge (strptime_to_utc : String → Int) (transform : Record → Record)
    (tap_stream_id replication_key : String) (bookmark_datetime : Int) :
    ∀ (records emitted : List Record) (mx : Int) (em2 : List Record) (mx2 : Int),
    sync_loop strptime_to_utc transform tap_stream_id replication_key bookmark_datetime
        records emitted mx = some (em2, mx2) →
    mx ≤ mx2 := by
  intro records
  induction records with
  | nil =>
    intro emitted mx em2 mx2 h
    simp only [sync_loop, Option.some.injEq, Prod.mk.injEq] at h
    exact le_of_eq h.2
  | cons r rest ih =>
    intro emitted mx em2 mx2 h
    cases hl : (transform r).lookup replication_key with
    | none => simp only [sync_loop, hl] at h; exact absurd h (by simp)
    | some v =>
      simp only [sync_loop, hl] at h
      by_cases hc : bookmark_datetime ≤ strptime_to_utc v ∨ tap_stream_id = "users"
      · rw [if_pos hc] at h
        exact le_trans (le_max_right _ _) (ih _ _ _ _ h)
      · rw [if_neg hc] at h
        exact ih _ _ _ _ h

/- ===== claim theorems ===== -/

/-- C1 (amended).  For every incremental stream sync, each record yielded by
the record source is schema-transformed, and it is emitted if and only if
its replication-key instant is at least the starting watermark or the stream
identity is users (which emits unconditionally); after the source is
exhausted, the value written back into state under the
(stream_id, replication_key) pair is the serialization of the maximum of the
starting watermark and the replication-key instants of the emitted records
(not, as originally claimed, the maximum among emitted records alone: the
tracked maximum is seeded with the starting watermark). -/
theorem c1_incremental_sync_amended
    (strptime_to_utc : String → Int) (strftime : Int → String)
    (transform : Record → Record) (tap_stream_id replication_key : String)
    (config_start : String) (state : SyncState) (records : List Record)
    (pairs : List (Record × Int))
    (hk : keyed_records strptime_to_utc transform replication_key records = some pairs) :
    incremental_sync strptime_to_utc strftime transform tap_stream_id replication_key
        config_start state records =
      some ((pairs.filter (fun p =>
              decide (strptime_to_utc (get_bookmark state tap_stream_id replication_key config_start) ≤ p.2
                ∨ tap_stream_id = "users"))).map Prod.fst,
            write_bookmark state tap_stream_id replication_key
              (strftime ((pairs.filter (fun p =>
                  decide (strptime_to_utc (get_bookmark state tap_stream_id replication_key config_start) ≤ p.2
                    ∨ tap_stream_id = "users"))).foldl (fun m p => max p.2 m)
                (strptime_to_utc (get_bookmark state tap_stream_id replication_key config_start))))) := by
  unfold incremental_sync
  dsimp only
  rw [sync_loop_eq_spec _ _ _ _ _ _ _ _ _ hk]
  simp

/-- C1 witness: a concrete non-users run where the record at instant 3 is
dropped (below watermark 4) and the record at instant 5 is emitted, and the
bookmark becomes the serialization of 5. -/
theorem c1_incremental_sync_amended_witness :
    keyed_records toy_strptime id "created_at"
        [[("created_at", "3")], [("created_at", "5")]] =
      some [([("created_at", "3")], 3), ([("created_at", "5")], 5)] ∧
    incremental_sync toy_strptime toy_strftime id "search_tweets" "created_at"
        "4" [] [[("created_at", "3")], [("created_at", "5")]] =
      some ([[("created_at", "5")]],
        write_bookmark [] "search_tweets" "created_at"
          (toy_strftime
            (([([("created_at", "3")], (3 : Int)), ([("created_at", "5")], 5)].filter (fun p =>
                decide (toy_strptime (get_bookmark [] "search_tweets" "created_at" "4") ≤ p.2
                  ∨ "search_tweets" = "users"))).foldl (fun m p => max p.2 m)
              (toy_strptime (get_bookmark [] "search_tweets" "created_at" "4"))))) := by
  constructor
  · decide
  · exact c1_incremental_sync_amended toy_strptime toy_strftime id "search_tweets" "created_at"
      "4" [] [[("created_at", "3")], [("created_at", "5")]]
      [([("created_at", "3")], 3), ([("created_at", "5")], 5)] (by decide)

/-- C1 counterexample to the original claim: for the users stream, with
starting watermark 5 and a single source record whose replication-key
instant is 3, the record is emitted (bypass), so the maximum replication-key
value among emitted records serializes to 3, yet the bookmark written into
state is 5, the starting watermark.  The claim as stated (bookmark equals
the maximum among emitted records) is therefore false here. -/
theorem c1_incremental_sync_counterexample :
    incremental_sync toy_strptime toy_strftime id "users" "updated_at" "0"
        [(("users", "updated_at"), "5")] [[("updated_at", "3")]] =
      some ([[("updated_at", "3")]],
        [(("users", "updated_at"), "5"), (("users", "updated_at"), "5")]) ∧
    toy_strftime (toy_strptime "3") = "3" ∧
    ("5" : String) ≠ "3" := by decide

/-- C2.  For every incremental stream and every starting state, when sync
completes, the instant whose serialization it writes into state is greater
than or equal to the starting watermark (the prior bookmark, or the
configured start date if no bookmark exists): the watermark never regresses
within a run. -/
theorem c2_watermark_never_regresses
    (strptime_to_utc : String → Int) (strftime : Int → String)
    (transform : Record → Record) (tap_stream_id replication_key : String)
    (config_start : String) (state : SyncState) (records emitted : List Record)
    (state2 : SyncState)
    (h : incremental_sync strptime_to_utc strftime transform tap_stream_id replication_key
        config_start state records = some (emitted, state2)) :
    ∃ mx : Int,
      strptime_to_utc (get_bookmark state tap_stream_id replication_key config_start) ≤ mx ∧
      state2 = write_bookmark state tap_stream_id replication_key (strftime mx) := by
  unfold incremental_sync at h
  dsimp only at h
  cases hs : sync_loop strptime_to_utc transform tap_stream_id replication_key
      (strptime_to_utc (get_bookmark state tap_stream_id replication_key config_start))
      records []
      (strptime_to_utc (get_bookmark state tap_stream_id replication_key config_start)) with
  | none => rw [hs] at h; exact absurd h (by simp)
  | some pr =>
    rw [hs] at h
    simp only [Option.some.injEq, Prod.mk.injEq] at h
    refine ⟨pr.2, ?_, ?_⟩
    · exact sync_loop_max_ge _ _ _ _ _ _ _ _ _ _ (by rw [hs])
    · rw [← h.2]

/-- C2 witness: a concrete completed sync whose written watermark instant
dominates the starting watermark 4. -/
theorem c2_watermark_never_regresses_witness :
    ∃ mx : Int,
      toy_strptime (get_bookmark [] "search_tweets" "created_at" "4") ≤ mx ∧
      ((("search_tweets", "created_at"), "5") :: ([] : SyncState)) =
        write_bookmark [] "search_tweets" "created_at" (toy_strftime mx) :=
  c2_watermark_never_regresses toy_strptime toy_strftime id "search_tweets" "created_at"
    "4" [] [[("created_at", "5")]] [[("created_at", "5")]]
    ((("search_tweets", "created_at"), "5") :: []) (by decide)

/-- C10.  For every incremental stream whose record source yields no
records, sync emits nothing, but still writes a bookmark equal to the
starting watermark (the prior bookmark, or the configured start date if no
bookmark exists, re-serialized through the timestamp formatter) into state
under the (stream_id, replication_key) pair, and that state is what is
persisted. -/
theorem c10_empty_source_rewrites_bookmark
    (strptime_to_utc : String → Int) (strftime : Int → String)
    (transform : Record → Record) (tap_stream_id replication_key : String)
    (config_start : String) (state : SyncState) :
    incremental_sync strptime_to_utc strftime transform tap_stream_id replication_key
        config_start state [] =
      some ([], write_bookmark state tap_stream_id replication_key
        (strftime (strptime_to_utc (get_bookmark state tap_stream_id replication_key config_start)))) :=
  rfl

/-- C6.  For every input date strictly earlier than now minus lookback_days
in UTC, get_bookmark_or_max_date returns the floor (now minus lookback_days)
plus 30 seconds, rendered by the isoformat serializer; for every input date
at or after that floor, it returns the input string unchanged. -/
theorem c6_clamp_to_lookback_window
    (strptime_to_utc : String → Int) (isoformat : Int → String)
    (now : Int) (lookback_days : Nat) (date : String) :
    (strptime_to_utc date < now - (lookback_days : Int) * 86400 →
      get_bookmark_or_max_date strptime_to_utc isoformat now lookback_days date =
        isoformat (now - (lookback_days : Int) * 86400 + 30)) ∧
    (now - (lookback_days : Int) * 86400 ≤ strptime_to_utc date →
      get_bookmark_or_max_date strptime_to_utc isoformat now lookback_days date = date) := by
  constructor
  · intro h
    simp [get_bookmark_or_max_date, h]
  · intro h
    simp [get_bookmark_or_max_date, not_lt.mpr h]

/-- C6 witness: with the default seven-day window, an instant below the
floor is clamped to floor plus 30 and an instant at the floor is returned
unchanged. -/
theorem c6_clamp_to_lookback_window_witness :
    get_bookmark_or_max_date (fun _ => (0 : Int)) (fun n => if n = 130 then "floor30" else "x")
        604900 7 "old" = "floor30" ∧
    get_bookmark_or_max_date (fun _ => (0 : Int)) (fun n => if n = 130 then "floor30" else "x")
        0 7 "recent" = "recent" :=
  ⟨by
    have h := (c6_clamp_to_lookback_window (fun _ => (0 : Int))
      (fun n => if n = 130 then "floor30" else "x") 604900 7 "old").1 (by decide)
    simpa using h,
   (c6_clamp_to_lookback_window (fun _ => (0 : Int))
      (fun n => if n = 130 then "floor30" else "x") 0 7 "recent").2 (by decide)⟩

/-- C7: the code at the failing input.  SearchTweets.get_records is a
generator function decorated with functools.lru_cache, so the cache stores
the generator object itself.  Starting from an empty cache and a source that
produces one record, the first full consumption returns that record and runs
the underlying network interaction once, but the second consumption of the
identical argument tuple receives the same, already exhausted generator and
yields the empty sequence rather than replaying the first one. -/
theorem c7_lru_cache_returns_exhausted_generator :
    consume_twice [[("id", "1")]] = ([[("id", "1")]], [], 1) ∧
    ([[("id", "1")]] : List Record) ≠ [] := by decide

/-- C8.  If the configured query set (tweet_search_query) is not a list,
SearchTweets.get_records fails with the configuration-validity error
TapConfigException, and the list of issued API requests is empty: it fails
before issuing any API request. -/
theorem c8_query_set_not_list
    (api : TweetParams → SearchPage) (strptime_to_utc : String → Int)
    (wire_format isoformat : Int → String) (now : Int) (fuel : Nat)
    (config : Config) (start_date : String)
    (h : ∀ items, config.tweet_search_query ≠ some (ConfVal.list items)) :
    search_get_records api strptime_to_utc wire_format isoformat now fuel config start_date =
      ([], [], some TapErr.configError) := by
  unfold search_get_records
  dsimp only
  cases hc : config.tweet_search_query with
  | none => rfl
  | some v =>
    cases v with
    | str s => rfl
    | list items => exact absurd hc (h items)

/-- C8 witness: a config whose tweet_search_query is absent makes
get_records return the configuration error with no request issued. -/
theorem c8_query_set_not_list_witness :
    search_get_records (fun _ => { next_token := none, data := none, errors := none })
        toy_strptime toy_strftime toy_strftime 0 5
        { tweet_search_query := none, tweet_search_fields := none, user_fields := none } "d" =
      ([], [], some TapErr.configError) :=
  c8_query_set_not_list _ _ _ _ _ _ _ _ (fun _ hc => Option.noConfusion hc)

/-- C3.  If a search page response has empty or absent data and carries a
non-empty errors array, the page loop of SearchTweets.get_records raises a
TwitterClientError whose message contains both the first error title and its
detail, yields zero records from that page, and issues no further request:
pagination does not continue past such a response.  The final conjunct lifts
this to get_records for a single-query configuration whose first page is
such a response. -/
theorem c3_search_error_page
    (api : TweetParams → SearchPage) (query tweet_fields start_time : String)
    (fuel : Nat) (token : Option String) (t d : String) (es : List ErrObj)
    (hdata : (api (⟨query, tweet_fields, start_time, token, 100⟩ : TweetParams)).data = none ∨
      (api (⟨query, tweet_fields, start_time, token, 100⟩ : TweetParams)).data = some [])
    (herr : (api (⟨query, tweet_fields, start_time, token, 100⟩ : TweetParams)).errors =
      some ({ title := some t, detail := some d } :: es)) :
    query_loop api query tweet_fields start_time (fuel + 1) token =
      ([(⟨query, tweet_fields, start_time, token, 100⟩ : TweetParams)], [],
        some (TapErr.twitterClientError (t ++ ": " ++ d))) ∧
    contains_sub (t ++ ": " ++ d) t ∧
    contains_sub (t ++ ": " ++ d) d ∧
    (∀ (strptime_to_utc : String → Int) (wire_format isoformat : Int → String)
        (now : Int) (config : Config) (start_date : String),
      config.tweet_search_query = some (ConfVal.list [query]) →
      get_tweet_fields config = tweet_fields →
      date_to_rfc3339 strptime_to_utc wire_format
          (get_bookmark_or_max_date strptime_to_utc isoformat now 7 start_date) = start_time →
      token = none →
      search_get_records api strptime_to_utc wire_format isoformat now (fuel + 1)
          config start_date =
        ([(⟨query, tweet_fields, start_time, token, 100⟩ : TweetParams)], [],
          some (TapErr.twitterClientError (t ++ ": " ++ d)))) := by
  have hloop : query_loop api query tweet_fields start_time (fuel + 1) token =
      ([(⟨query, tweet_fields, start_time, token, 100⟩ : TweetParams)], [],
        some (TapErr.twitterClientError (t ++ ": " ++ d))) := by
    cases hdata with
    | inl hnone =>
      simp only [query_loop, hnone, herr, opt_str]
    | inr hempty =>
      simp only [query_loop, hempty, herr, opt_str]
  refine ⟨hloop, ?_, ?_, ?_⟩
  · exact ⟨[], (": " ++ d).data, by simp [String.data_append, List.append_assoc]⟩
  · exact ⟨(t ++ ": ").data, [], by simp [String.data_append, List.append_assoc]⟩
  · intro strptime_to_utc wire_format isoformat now config start_date hq hf hs htok
    subst htok
    unfold search_get_records
    dsimp only
    rw [hq]
    unfold run_queries
    rw [hf, hs, hloop]

/-- C3 witness: a concrete oracle returning an empty data array and one
error object with title X and detail Y makes the page loop stop with the
combined message after one request and zero records. -/
theorem c3_search_error_page_witness :
    query_loop (fun _ => (⟨none, some [], some [⟨some "X", some "Y"⟩]⟩ : SearchPage)) "q" "f" "s" 1 none =
      ([(⟨"q", "f", "s", none, 100⟩ : TweetParams)], [],
        some (TapErr.twitterClientError ("X" ++ ": " ++ "Y"))) ∧
    contains_sub ("X" ++ ": " ++ "Y") "X" ∧ contains_sub ("X" ++ ": " ++ "Y") "Y" :=
  have h := c3_search_error_page
    (fun _ => (⟨none, some [], some [⟨some "X", some "Y"⟩]⟩ : SearchPage))
    "q" "f" "s" 0 none "X" "Y" [] (Or.inr rfl) rfl
  ⟨h.1, h.2.1, h.2.2.1⟩

/-- C4.  The client retries only the 429 failure class: any attempt whose
outcome is not a 429 typed failure ends the call immediately with that
outcome and no wait (in particular a 404 raises within one attempt); the
wait schedule starts at 10 and increases by 10 up to the ceiling 300; a 429
followed by a 200 sleeps one wait of 10 and returns the 200 body; and eleven
consecutive 429 responses still stop after the ten-attempt budget with nine
waits 10..90 and the 429 failure. -/
theorem c4_retry_policy :
    (∀ (r : HttpResponse) (rest : List HttpResponse),
      (∀ m, make_request_once r ≠ ReqOut.failed ErrKind.e429 m) →
      client_request (r :: rest) = ([], make_request_once r)) ∧
    (∀ (r : HttpResponse) (rest : List HttpResponse) (m : Option String),
      make_request_once r = ReqOut.failed ErrKind.e404 m →
      client_request (r :: rest) = ([], ReqOut.failed ErrKind.e404 m)) ∧
    retry_after_wait_gen = [10, 20, 30, 40, 50, 60, 70, 80, 90, 100, 110, 120, 130, 140, 150,
      160, 170, 180, 190, 200, 210, 220, 230, 240, 250, 260, 270, 280, 290, 300] ∧
    (∀ (r429 r200 : HttpResponse) (m : Option String) (b : JsonBody),
      make_request_once r429 = ReqOut.failed ErrKind.e429 m →
      make_request_once r200 = ReqOut.ok b →
      client_request [r429, r200] = ([10], ReqOut.ok b)) ∧
    (∀ (r429 : HttpResponse) (m : Option String),
      make_request_once r429 = ReqOut.failed ErrKind.e429 m →
      client_request (List.replicate 11 r429) =
        ([10, 20, 30, 40, 50, 60, 70, 80, 90], ReqOut.failed ErrKind.e429 m)) := by
  have hgen : retry_after_wait_gen = [10, 20, 30, 40, 50, 60, 70, 80, 90, 100, 110, 120, 130,
      140, 150, 160, 170, 180, 190, 200, 210, 220, 230, 240, 250, 260, 270, 280, 290, 300] := by
    decide
  refine ⟨?_, ?_, hgen, ?_, ?_⟩
  · intro r rest hne
    unfold client_request make_request_with_retry
    cases hout : make_request_once r with
    | ok b => rfl
    | noBody => rfl
    | pyValueError => rfl
    | pyIndexError => rfl
    | noResponse => rfl
    | failed kind m =>
      cases kind with
      | e429 => exact absurd hout (hne m)
      | e400 => rfl
      | e401 => rfl
      | e403 => rfl
      | e404 => rfl
      | e5xx => rfl
      | generic => rfl
  · intro r rest m h
    unfold client_request make_request_with_retry
    rw [h]
    simp
  · intro r429 r200 m b h429 h200
    unfold client_request
    rw [hgen]
    unfold make_request_with_retry
    rw [h429]
    norm_num
    unfold make_request_with_retry
    rw [h200]
    simp
  · intro r429 m h429
    unfold client_request
    rw [hgen]
    simp only [List.replicate, make_request_with_retry, h429]
    norm_num

/-- C4 witness: concrete 404, 429 and 200 responses exercising every
hypothesis of the retry-policy theorem. -/
theorem c4_retry_policy_witness :
    client_request [⟨404, RespBody.parsed ⟨none, 0⟩⟩] =
      ([], ReqOut.failed ErrKind.e404 (some "Not Found")) ∧
    client_request [⟨429, RespBody.parsed ⟨none, 0⟩⟩, ⟨200, RespBody.parsed ⟨none, 7⟩⟩] =
      ([10], ReqOut.ok ⟨none, 7⟩) ∧
    client_request (List.replicate 11 ⟨429, RespBody.parsed ⟨none, 0⟩⟩) =
      ([10, 20, 30, 40, 50, 60, 70, 80, 90],
        ReqOut.failed ErrKind.e429 (some "API limit has been reached")) :=
  ⟨c4_retry_policy.2.1 ⟨404, RespBody.parsed ⟨none, 0⟩⟩ [] (some "Not Found") (by decide),
   c4_retry_policy.2.2.2.1 ⟨429, RespBody.parsed ⟨none, 0⟩⟩ ⟨200, RespBody.parsed ⟨none, 7⟩⟩
     (some "API limit has been reached") ⟨none, 7⟩ (by decide) (by decide),
   c4_retry_policy.2.2.2.2 ⟨429, RespBody.parsed ⟨none, 0⟩⟩
     (some "API limit has been reached") (by decide)⟩

/-- C5 counterexample to the original claim: a 204 response has a non-200
status code, yet the client raises no typed failure at all: raise_for_status
does not raise for it, raise_for_error returns normally, and make_request
falls through to return None. -/
theorem c5_error_classification_counterexample :
    make_request_once ⟨204, RespBody.parsed ⟨none, 0⟩⟩ = ReqOut.noBody ∧
    (make_request_once ⟨204, RespBody.parsed ⟨none, 0⟩⟩).is_typed_failure = false ∧
    204 ≠ 200 := by decide

/-- C5 (amended).  For every response with a status code in 400..599,
raise_for_error raises a typed failure selected by status-code class:
distinct classes for 400, 401, 403, 404 and 429, one shared class for 500
and 503, and the generic class for any other such code; its message is the
body errors[0].message when present and truthy, and otherwise the fixed
phrase of that status class (Client Error for unmapped codes); a body that
cannot be parsed as JSON yields the generic class from raise_for_error
(via make_request the logging line re-raises the bare parse error first),
and a parsed body whose errors array is empty escapes as an IndexError
rather than a typed failure.  A non-200 status outside 400..599 raises
nothing: make_request returns the empty body None.  make_request propagates
the raise_for_error outcome unchanged for parsed bodies. -/
theorem c5_error_classification_amended :
    (status_class 400 = ErrKind.e400 ∧ status_class 401 = ErrKind.e401 ∧
      status_class 403 = ErrKind.e403 ∧ status_class 404 = ErrKind.e404 ∧
      status_class 429 = ErrKind.e429 ∧ status_class 500 = ErrKind.e5xx ∧
      status_class 503 = ErrKind.e5xx) ∧
    (∀ status : Nat, status ≠ 400 → status ≠ 401 → status ≠ 403 → status ≠ 404 →
      status ≠ 429 → status ≠ 500 → status ≠ 503 → status_class status = ErrKind.generic) ∧
    (∀ (status : Nat) (b : JsonBody) (m : String) (rest : List (Option String)),
      400 ≤ status → status < 600 → b.errors = some (some m :: rest) → m ≠ "" →
      raise_for_error ⟨status, RespBody.parsed b⟩ =
        RaiseOutcome.raised (status_class status) (some m)) ∧
    (∀ (status : Nat) (b : JsonBody),
      400 ≤ status → status < 600 → b.errors = none →
      raise_for_error ⟨status, RespBody.parsed b⟩ =
        RaiseOutcome.raised (status_class status) (some (status_fallback status))) ∧
    (∀ status : Nat, 400 ≤ status → status < 600 →
      raise_for_error ⟨status, RespBody.malformed⟩ =
        RaiseOutcome.raised ErrKind.generic none) ∧
    (∀ (status : Nat) (b : JsonBody),
      400 ≤ status → status < 600 → b.errors = some [] →
      raise_for_error ⟨status, RespBody.parsed b⟩ = RaiseOutcome.indexError) ∧
    (∀ (status : Nat) (b : JsonBody),
      status ≠ 200 → ¬(400 ≤ status ∧ status < 600) →
      raise_for_error ⟨status, RespBody.parsed b⟩ = RaiseOutcome.noRaise ∧
      make_request_once ⟨status, RespBody.parsed b⟩ = ReqOut.noBody) ∧
    (∀ (status : Nat) (b : JsonBody),
      status ≠ 200 →
      make_request_once ⟨status, RespBody.parsed b⟩ =
        (match raise_for_error ⟨status, RespBody.parsed b⟩ with
         | RaiseOutcome.noRaise => ReqOut.noBody
         | RaiseOutcome.raised k m => ReqOut.failed k m
         | RaiseOutcome.indexError => ReqOut.pyIndexError)) := by
  refine ⟨⟨rfl, rfl, rfl, rfl, rfl, rfl, rfl⟩, ?_, ?_, ?_, ?_, ?_, ?_, ?_⟩
  · intro status h1 h2 h3 h4 h5 h6 h7
    unfold status_class ERROR_CODE_EXCEPTION_MAPPING
    simp [h1, h2, h3, h4, h5, h6, h7]
  · intro status b m rest hlo hhi herr hm
    unfold raise_for_error
    rw [if_pos ⟨hlo, hhi⟩]
    simp [herr, hm]
  · intro status b hlo hhi herr
    unfold raise_for_error
    rw [if_pos ⟨hlo, hhi⟩]
    simp [herr]
  · intro status hlo hhi
    unfold raise_for_error
    rw [if_pos ⟨hlo, hhi⟩]
  · intro status b hlo hhi herr
    unfold raise_for_error
    rw [if_pos ⟨hlo, hhi⟩]
    simp [herr]
  · intro status b h200 hrange
    have hr : raise_for_error ⟨status, RespBody.parsed b⟩ = RaiseOutcome.noRaise := by
      unfold raise_for_error
      rw [if_neg hrange]
    refine ⟨hr, ?_⟩
    unfold make_request_once
    rw [if_pos h200, hr]
  · intro status b h200
    unfold make_request_once
    rw [if_pos h200]

/-- C5 witness: exercising the amended classification at concrete inputs:
a 404 with a body message, a 503 with no errors field falling back to the
mapped phrase, an unmapped 418 falling back to Client Error with the generic
class, a malformed 400 body, an empty errors array, and a 204. -/
theorem c5_error_classification_witness :
    raise_for_error ⟨404, RespBody.parsed ⟨some [some "gone"], 0⟩⟩ =
      RaiseOutcome.raised (status_class 404) (some "gone") ∧
    raise_for_error ⟨503, RespBody.parsed ⟨none, 0⟩⟩ =
      RaiseOutcome.raised (status_class 503) (some (status_fallback 503)) ∧
    status_class 418 = ErrKind.generic ∧
    raise_for_error ⟨400, RespBody.malformed⟩ = RaiseOutcome.raised ErrKind.generic none ∧
    raise_for_error ⟨429, RespBody.parsed ⟨some [], 0⟩⟩ = RaiseOutcome.indexError ∧
    make_request_once ⟨204, RespBody.parsed ⟨none, 0⟩⟩ = ReqOut.noBody :=
  ⟨c5_error_classification_amended.2.2.1 404 ⟨some [some "gone"], 0⟩ "gone" []
      (by decide) (by decide) rfl (by decide),
   c5_error_classification_amended.2.2.2.1 503 ⟨none, 0⟩ (by decide) (by decide) rfl,
   c5_error_classification_amended.2.1 418 (by decide) (by decide) (by decide) (by decide)
      (by decide) (by decide) (by decide),
   c5_error_classification_amended.2.2.2.2.1 400 (by decide) (by decide),
   c5_error_classification_amended.2.2.2.2.2.1 429 ⟨some [], 0⟩ (by decide) (by decide) rfl,
   (c5_error_classification_amended.2.2.2.2.2.2.1 204 ⟨none, 0⟩ (by decide) (by decide)).2⟩

theorem users_loop_spec (get_users : UserParams → UsersResponse)
    (users_of : UserParams → List Record) (user_fields start_date : String)
    (h : ∀ p, get_users p = ⟨some (users_of p)⟩) :
    ∀ batches : List (List String),
    users_loop get_users user_fields start_date batches =
      (batches.map (fun authors => (⟨String.intercalate "," authors, user_fields⟩ : UserParams)),
       (batches.map (fun authors =>
          (users_of ⟨String.intercalate "," authors, user_fields⟩).map
            (fun author => dict_literal (("updated_at", start_date) :: author)))).flatten,
       none) := by
  intro batches
  induction batches with
  | nil => simp [users_loop]
  | cons authors rest ih =>
    simp only [users_loop, h, ih, List.map, List.flatten_cons]

/-- C9 (amended).  For each batch of author identifiers obtained from the
parent stream, the dependent user stream joins the identifiers into a
comma-separated list, issues one user-lookup request with the ids and the
configured user fields, and yields one record per returned user object,
each record built as the dict literal whose first entry is the synthetic
updated_at set to the original, unclamped start_date argument and whose
remaining entries are the API-returned fields unpacked after it: so the
API fields take precedence on a key conflict, and updated_at equals
start_date exactly for user objects that do not themselves carry an
updated_at field (not, as originally claimed, for every record). -/
theorem c9_users_get_records_amended
    (get_users : UserParams → UsersResponse) (users_of : UserParams → List Record)
    (parent_batches : List (List String)) (config : Config) (start_date : String)
    (h : ∀ p, get_users p = ⟨some (users_of p)⟩) :
    users_get_records get_users parent_batches config start_date =
      (parent_batches.map (fun authors =>
          (⟨String.intercalate "," authors, get_user_fields config⟩ : UserParams)),
       (parent_batches.map (fun authors =>
          (users_of ⟨String.intercalate "," authors, get_user_fields config⟩).map
            (fun author => dict_literal (("updated_at", start_date) :: author)))).flatten,
       none) ∧
    (∀ author : Record, "updated_at" ∉ author.map Prod.fst →
      (dict_literal (("updated_at", start_date) :: author)).lookup "updated_at" =
        some start_date) := by
  constructor
  · exact users_loop_spec get_users users_of (get_user_fields config) start_date h parent_batches
  · intro author hmem
    unfold dict_literal
    simp only [List.foldl]
    rw [foldl_set_key_lookup_of_not_mem author _ _ hmem, set_key_lookup_self]

/-- C9 witness: one batch with one author id, a lookup returning one user
object without an updated_at field: one request is issued with the joined
ids and the record carries updated_at equal to the start_date argument. -/
theorem c9_users_get_records_amended_witness :
    users_get_records (fun _ => ⟨some [[("id", "1")]]⟩) [["1", "2"]]
        ⟨none, none, none⟩ "S" =
      ([⟨"1,2", "created_at"⟩],
       [dict_literal (("updated_at", "S") :: [("id", "1")])], none) ∧
    (dict_literal (("updated_at", "S") :: [("id", "1")])).lookup "updated_at" = some "S" :=
  have h := c9_users_get_records_amended (fun _ => ⟨some [[("id", "1")]]⟩)
    (fun _ => [[("id", "1")]]) [["1", "2"]] ⟨none, none, none⟩ "S" (fun _ => rfl)
  ⟨by simpa using h.1, h.2 [("id", "1")] (by decide)⟩

/-- C9 counterexample to the original claim: when the API returns a user
object that itself carries an updated_at field, the unpacking in the dict
literal lets the API value override the synthetic one, so the emitted record
carries the server-provided value Z, not the start_date argument S: the
record is not equal to the API fields merged with updated_at set to
start_date. -/
theorem c9_users_get_records_counterexample :
    (users_get_records (fun _ => ⟨some [[("updated_at", "Z"), ("id", "1")]]⟩) [["1"]]
        ⟨none, none, none⟩ "S").2.1 =
      [[("updated_at", "Z"), ("id", "1")]] ∧
    ([("updated_at", "Z"), ("id", "1")] : Record).lookup "updated_at" = some "Z" ∧
    some "Z" ≠ some "S" := by decide
